import Mathlib

/-!
Shallow embedding of `unstructured/partition/doc.py` — the legacy-format
(.doc) adapter `partition_doc` — together with models of its external
collaborators, and proofs of the specification claims about it.

The adapter's own code (validation, temporary-file staging, converter
invocation, metadata back-fill) is translated line by line from the source.
Collaborators that live outside this slice (`exactly_one`,
`get_last_modified_date`, `convert_office_doc`, `partition_docx`) are
modelled from the spec's collaborator contracts and pinned down, where the
spec is silent, by the adapter's own test suite; each carries a doc comment
saying so. Side effects are made observable through an event trace so that
ordering claims ("raised before any I/O") and call-argument claims ("the
inner call receives ...") can be stated.
-/

namespace UnstructuredDoc

/-- File-type tags relevant to this adapter
(`unstructured.file_utils.model.FileType`): the legacy tag the adapter
stamps on its output and the intermediate modern tag it must never leak. -/
inductive FileType where
  | DOC
  | DOCX
deriving DecidableEq, Repr

/-- The slice of element metadata this adapter reads or writes
(`element.metadata.filename`, `.filetype`, `.last_modified`). -/
structure ElementMetadata where
  filename : Option String
  filetype : FileType
  last_modified : Option String
deriving DecidableEq, Repr

/-- A parsed element as produced by the downstream docx parsing stage before
metadata back-fill: identifier, text and category come from parsing alone. -/
structure RawElement where
  id : String
  text : String
  category : String
deriving DecidableEq, Repr

/-- A document element: parse-derived fields plus the metadata fields this
adapter touches. -/
structure Element where
  id : String
  text : String
  category : String
  metadata : ElementMetadata
deriving DecidableEq, Repr

/-- Deterministic external collaborators and ambient state, abstracted as
pure functions: the filesystem (existence, mtime, contents keyed by path),
the current working directory, the LibreOffice converter (bytes of the
produced .docx as a function of source bytes and filter), and the docx
parsing stage (raw elements as a function of docx bytes and the forwarded
keyword options). -/
structure Collaborators where
  cwd : String
  fsExists : String → Bool
  fsMtime : String → Option String
  fsContent : String → String
  convert : String → Option String → String
  parseDocx : String → List (String × String) → List RawElement

/-- Split a character list at every occurrence of `sep` (the splitter
underlying the path helpers; structurally recursive so concrete inputs
evaluate definitionally). Agrees with Python `str.split(sep)`. -/
def splitOnChar (sep : Char) : List Char → List (List Char)
  | [] => [[]]
  | c :: cs =>
    match splitOnChar sep cs with
    | [] => [[c]]
    | h :: t => if c = sep then [] :: h :: t else (c :: h) :: t

/-- Interleave `sep` between the pieces, inverse of `splitOnChar` on its
image. -/
def joinWith (sep : Char) : List (List Char) → List Char
  | [] => []
  | [x] => x
  | x :: y :: t => x ++ sep :: joinWith sep (y :: t)

/-- Last `/`-separated component of a path, as produced by
`os.path.split(...)[1]` for the paths arising here. -/
def baseName (p : String) : String :=
  String.mk ((splitOnChar (Char.ofNat 47) p.data).getLastD [])

/-- `os.path.abspath` for the uses arising here: anchor a relative path at
the current working directory. -/
def absPath (cwd p : String) : String :=
  if p.data.head? = some (Char.ofNat 47) then p else cwd ++ "/" ++ p

/-- Root part of `os.path.splitext` on a bare file name: drop the extension
after the last dot, unless every character before that dot is itself a dot
(so `document.doc` gives `document` and `.bashrc` stays whole). -/
def splitExtRoot (s : String) : String :=
  let parts := splitOnChar (Char.ofNat 46) s.data
  if parts.length ≤ 1 then s
  else if parts.dropLast.all (fun q => q.isEmpty) then s
  else String.mk (joinWith (Char.ofNat 46) parts.dropLast)

/-- `os.path.join` for the two-argument uses in this adapter. -/
def pathJoin (d x : String) : String :=
  if x.data.head? = some (Char.ofNat 47) then x
  else if d = "" then x
  else if d.data.getLast? = some (Char.ofNat 47) then d ++ x
  else d ++ "/" ++ x

/-- Python truthiness of an optional string: `None` and `""` are falsy. -/
def isTruthy : Option String → Bool
  | none => false
  | some s => s != ""

/-- Python `a or b` on optional strings. -/
def pyOr (a b : Option String) : Option String :=
  if isTruthy a then a else b

/-- Modelled from the spec: `exactly_one` (from
`unstructured.partition.common.common`, outside this slice) raises a usage
error unless exactly one of the two document sources is non-null. This
check holds exactly when the arguments are acceptable. -/
def exactly_one_check (filename file : Option String) : Bool :=
  filename.isSome != file.isSome

/-- Errors `partition_doc` raises itself (both are `ValueError` in the
source, distinguished here by their payload). -/
inductive PartError where
  | usageError (msg : String)
  | notFound (path : String)
deriving DecidableEq, Repr

/-- Message carried by the usage error, from the adapter's test suite. -/
def exactly_one_msg : String := "Exactly one of filename and file must be specified"

/-- Observable side effects of one `partition_doc` call, in program order:
the timestamp lookup, temporary-directory lifecycle, the staging write for a
stream input, the converter invocation with its arguments, and the downstream
`partition_docx` invocation with the metadata overrides and keyword options
it receives. -/
inductive Event where
  | lastModifiedLookup (path : String)
  | tempDirCreated (dir : String)
  | fileWrite (path : String)
  | convertCall (sourcePath targetDir targetFormat : String) (targetFilter : Option String)
  | partitionDocxCall (filename : String) (metadata_filename : Option String)
      (metadata_file_type : FileType) (metadata_last_modified : Option String)
      (kwargs : List (String × String))
  | tempDirRemoved (dir : String)
deriving DecidableEq, Repr

/-- Trace of the events a call performed plus the call's outcome. -/
structure RunResult where
  trace : List Event
  result : Except PartError (List Element)

/-- Modelled from the spec: the filesystem-timestamp lookup
(`unstructured.partition.common.metadata.get_last_modified_date`, outside
this slice) returns a last-modified timestamp string for an existing path
and null otherwise. -/
def get_last_modified_date (c : Collaborators) (p : String) : Option String :=
  if c.fsExists p then c.fsMtime p else none

/-- Modelled from the spec: `convert_office_doc` (from
`unstructured.partition.common.common`, outside this slice) runs the
LibreOffice CLI to produce, in the target directory, a file in the target
format with the source's base name. The model exposes the produced bytes as
a pure function of the source bytes and the filter; the invocation and its
arguments are recorded in the caller's trace. -/
def convert_office_doc (c : Collaborators) (sourceBytes : String)
    (target_filter : Option String) : String :=
  c.convert sourceBytes target_filter

/-- Modelled from the spec: `partition_docx`
(`unstructured.partition.docx`, outside this slice) parses the converted
document and attaches metadata. Filename metadata is the base name of the
truthy one among the metadata-filename override and the file path (the
path/basename split is pinned by this adapter's own test suite: elements
carry the base name while the directory part goes to `file_directory`);
file-type and last-modified metadata are taken verbatim from the overrides;
the keyword options reach the parsing stage. -/
def partition_docx (c : Collaborators) (docxBytes : String) (filename : String)
    (metadata_filename : Option String) (metadata_file_type : FileType)
    (metadata_last_modified : Option String) (kwargs : List (String × String)) :
    List Element :=
  (c.parseDocx docxBytes kwargs).map fun r =>
    { id := r.id, text := r.text, category := r.category,
      metadata :=
        { filename := some (baseName ((pyOr metadata_filename (some filename)).getD filename)),
          filetype := metadata_file_type,
          last_modified := metadata_last_modified } }

/-- Default value of the `libre_office_filter` parameter of `partition_doc`
(source line 19). -/
def default_libre_office_filter : Option String := some "MS Word 2007 XML"

/-- Shallow embedding of `partition_doc` (source lines 14–103). Arguments
follow the source signature, with the temporary directory made explicit
(the source draws a fresh one from `tempfile`), a stream modelled by its
bytes, and `**kwargs` by a key/value list. The returned trace records the
side effects in order. -/
def partition_doc (c : Collaborators) (tempDir : String)
    (filename file metadata_filename metadata_last_modified : Option String)
    (libre_office_filter : Option String) (kwargs : List (String × String)) :
    RunResult :=
  -- line 50: exactly_one(filename=filename, file=file)
  if !(exactly_one_check filename file) then
    ⟨[], .error (.usageError exactly_one_msg)⟩
  else
    let fname := filename.getD ""
    -- line 52: last_modified = get_last_modified_date(filename) if filename else None
    let lookupTrace : List Event :=
      if isTruthy filename then [.lastModifiedLookup fname] else []
    let last_modified : Option String :=
      if isTruthy filename then get_last_modified_date c fname else none
    -- lines 55-56: if filename is not None and not os.path.exists(filename): raise
    if filename.isSome && !(c.fsExists fname) then
      ⟨lookupTrace, .error (.notFound fname)⟩
    else
      -- line 63: source path is the staged temp file for a stream, else the path
      let source_file_path := if file.isSome then tempDir ++ "/document.doc" else fname
      -- lines 68-70: materialize the stream for the CLI
      let writeTrace : List Event :=
        if file.isSome then [.fileWrite source_file_path] else []
      let sourceBytes := if file.isSome then file.getD "" else c.fsContent fname
      -- lines 74-79: convert the .doc file to .docx
      let docxBytes := convert_office_doc c sourceBytes libre_office_filter
      -- lines 82-84: compute the path of the resulting .docx document
      let filename_no_path := baseName (absPath c.cwd source_file_path)
      let base_filename := splitExtRoot filename_no_path
      let target_file_path := pathJoin tempDir (base_filename ++ ".docx")
      -- lines 89-95: partition the converted file
      let inner_metadata_filename := pyOr metadata_filename filename
      let inner_last_modified := pyOr metadata_last_modified last_modified
      let elements :=
        partition_docx c docxBytes target_file_path inner_metadata_filename
          FileType.DOC inner_last_modified kwargs
      -- lines 99-101: for a stream input, overwrite filename metadata verbatim
      let patched :=
        if file.isSome then
          elements.map fun e =>
            { e with metadata := { e.metadata with filename := metadata_filename } }
        else elements
      ⟨lookupTrace ++ [.tempDirCreated tempDir] ++ writeTrace
          ++ [.convertCall source_file_path tempDir "docx" libre_office_filter]
          ++ [.partitionDocxCall target_file_path inner_metadata_filename
              FileType.DOC inner_last_modified kwargs]
          ++ [.tempDirRemoved tempDir],
        .ok patched⟩

/-- Elements of a normal return, `[]` for an error. -/
def resultElements (r : RunResult) : List Element :=
  match r.result with
  | .ok es => es
  | .error _ => []

/-- Whether the call returned normally. -/
def runOk (r : RunResult) : Bool :=
  match r.result with
  | .ok _ => true
  | .error _ => false

/-- Keyword-option lists received by the downstream partitioner, in call
order. -/
def innerKwargsList (r : RunResult) : List (List (String × String)) :=
  r.trace.filterMap fun ev =>
    match ev with
    | .partitionDocxCall _ _ _ _ kw => some kw
    | _ => none

/-- Metadata-filename values received by the downstream partitioner. -/
def innerMetadataFilenames (r : RunResult) : List (Option String) :=
  r.trace.filterMap fun ev =>
    match ev with
    | .partitionDocxCall _ mf _ _ _ => some mf
    | _ => none

/-- Filter arguments received by the converter. -/
def converterFilters (r : RunResult) : List (Option String) :=
  r.trace.filterMap fun ev =>
    match ev with
    | .convertCall _ _ _ f => some f
    | _ => none

/-- Raw elements used by the concrete collaborator assembly below. -/
def sampleRaw : List RawElement :=
  [⟨"id-1", "Hello", "Title"⟩, ⟨"id-2", "World", "NarrativeText"⟩]

/-- A small concrete collaborator assembly for concrete evaluations: one
document exists at `/docs/simple.doc`; converting its bytes and parsing the
result yields the two elements of `sampleRaw`. -/
def sampleCollab : Collaborators where
  cwd := "/work"
  fsExists := fun p => p == "/docs/simple.doc"
  fsMtime := fun p => if p == "/docs/simple.doc" then some "2024-01-02T03:04:05" else none
  fsContent := fun p => if p == "/docs/simple.doc" then "DOCBYTES" else ""
  convert := fun bytes _ => "DOCX:" ++ bytes
  parseDocx := fun bytes _ => if bytes == "DOCX:DOCBYTES" then sampleRaw else []

/-! ### Helper lemmas -/

theorem isTruthy_some_iff (s : String) : isTruthy (some s) = true ↔ s ≠ "" := by
  simp [isTruthy]

theorem pyOr_eq_ite (a b : Option String) : pyOr a b = if isTruthy a then a else b := rfl

theorem isTruthy_pyOr_right (a b : Option String) (hb : isTruthy b = true) :
    isTruthy (pyOr a b) = true := by
  unfold pyOr
  split
  · assumption
  · exact hb

theorem pyOr_getD_truthy (a : Option String) (b t : String) (hb : b ≠ "") :
    (pyOr (pyOr a (some b)) (some t)).getD t = if isTruthy a then a.getD b else b := by
  cases a with
  | none => simp [pyOr, isTruthy, hb]
  | some m =>
    by_cases hm : m = "" <;> simp [pyOr, isTruthy, hm, hb]

/-- The docx-stage model ignores its file-path argument whenever the
metadata-filename override it receives is truthy. -/
theorem partition_docx_filename_arg_irrelevant (c : Collaborators) (docxBytes f₁ f₂ : String)
    (mf : Option String) (ft : FileType) (lm : Option String)
    (kw : List (String × String)) (h : isTruthy mf = true) :
    partition_docx c docxBytes f₁ mf ft lm kw = partition_docx c docxBytes f₂ mf ft lm kw := by
  cases mf with
  | none => simp [isTruthy] at h
  | some m =>
    unfold partition_docx
    simp [pyOr, h]

/-! ### Shape lemmas: what one call computes in each of its branches -/

/-- Both-or-neither document sources: the usage-error branch. -/
theorem partition_doc_usage_eq (c : Collaborators) (tempDir : String)
    (filename file metadata_filename metadata_last_modified filt : Option String)
    (kwargs : List (String × String)) (h : filename.isSome = file.isSome) :
    partition_doc c tempDir filename file metadata_filename metadata_last_modified filt kwargs
      = ⟨[], .error (.usageError exactly_one_msg)⟩ := by
  unfold partition_doc exactly_one_check
  simp [h]

/-- Path input, path missing: the not-found branch. -/
theorem partition_doc_notFound_eq (c : Collaborators) (tempDir p : String)
    (mf ml filt : Option String) (kw : List (String × String))
    (hne : c.fsExists p = false) :
    partition_doc c tempDir (some p) none mf ml filt kw
      = ⟨if isTruthy (some p) = true then [.lastModifiedLookup p] else [],
         .error (.notFound p)⟩ := by
  unfold partition_doc exactly_one_check
  simp [hne]

/-- Path input, path present: the normal path-mode run. -/
theorem partition_doc_path_eq (c : Collaborators) (tempDir p : String)
    (mf ml filt : Option String) (kw : List (String × String))
    (hex : c.fsExists p = true) :
    partition_doc c tempDir (some p) none mf ml filt kw
      = ⟨(if isTruthy (some p) = true then [.lastModifiedLookup p] else [])
          ++ [.tempDirCreated tempDir,
              .convertCall p tempDir "docx" filt,
              .partitionDocxCall
                (pathJoin tempDir (splitExtRoot (baseName (absPath c.cwd p)) ++ ".docx"))
                (pyOr mf (some p)) FileType.DOC
                (pyOr ml (if isTruthy (some p) = true then get_last_modified_date c p else none))
                kw,
              .tempDirRemoved tempDir],
         .ok (partition_docx c (convert_office_doc c (c.fsContent p) filt)
              (pathJoin tempDir (splitExtRoot (baseName (absPath c.cwd p)) ++ ".docx"))
              (pyOr mf (some p)) FileType.DOC
              (pyOr ml (if isTruthy (some p) = true then get_last_modified_date c p else none))
              kw)⟩ := by
  unfold partition_doc exactly_one_check
  simp [hex]

/-- Stream input: the normal stream-mode run, ending in the filename patch. -/
theorem partition_doc_stream_eq (c : Collaborators) (tempDir s : String)
    (mf ml filt : Option String) (kw : List (String × String)) :
    partition_doc c tempDir none (some s) mf ml filt kw
      = ⟨[.tempDirCreated tempDir,
          .fileWrite (tempDir ++ "/document.doc"),
          .convertCall (tempDir ++ "/document.doc") tempDir "docx" filt,
          .partitionDocxCall
            (pathJoin tempDir
              (splitExtRoot (baseName (absPath c.cwd (tempDir ++ "/document.doc"))) ++ ".docx"))
            (pyOr mf none) FileType.DOC (pyOr ml none) kw,
          .tempDirRemoved tempDir],
         .ok ((partition_docx c (convert_office_doc c s filt)
              (pathJoin tempDir
                (splitExtRoot (baseName (absPath c.cwd (tempDir ++ "/document.doc"))) ++ ".docx"))
              (pyOr mf none) FileType.DOC (pyOr ml none) kw).map
            fun e => { e with metadata := { e.metadata with filename := mf } })⟩ := by
  unfold partition_doc exactly_one_check
  simp [isTruthy]

/-! ### Claim theorems -/

/-- C3: supplying both document sources or neither makes `partition_doc`
raise the usage error immediately, whatever the other arguments, and with no
side effect performed (empty trace). -/
theorem partition_doc_usage_error (c : Collaborators) (tempDir : String)
    (filename file metadata_filename metadata_last_modified filt : Option String)
    (kwargs : List (String × String)) (h : filename.isSome = file.isSome) :
    partition_doc c tempDir filename file metadata_filename metadata_last_modified filt kwargs
      = ⟨[], .error (.usageError exactly_one_msg)⟩ :=
  partition_doc_usage_eq c tempDir filename file metadata_filename metadata_last_modified
    filt kwargs h

/-- Witness for C3 at a concrete input: neither source supplied. -/
theorem partition_doc_usage_error_witness :
    (Option.isSome (none : Option String) = Option.isSome (none : Option String))
    ∧ partition_doc sampleCollab "/tmp/t0" none none none none default_libre_office_filter []
        = ⟨[], .error (.usageError exactly_one_msg)⟩ :=
  ⟨rfl, partition_doc_usage_error sampleCollab "/tmp/t0" none none none none
    default_libre_office_filter [] rfl⟩

/-- C5: for a stream input the call returns normally and every element's
filename metadata equals the caller's override verbatim (possibly null),
whatever filename the downstream partitioner attached internally. -/
theorem partition_doc_stream_filename_metadata (c : Collaborators) (tempDir s : String)
    (metadata_filename metadata_last_modified filt : Option String)
    (kwargs : List (String × String)) :
    runOk (partition_doc c tempDir none (some s) metadata_filename metadata_last_modified
        filt kwargs) = true
    ∧ ∀ e ∈ resultElements (partition_doc c tempDir none (some s) metadata_filename
        metadata_last_modified filt kwargs),
        e.metadata.filename = metadata_filename := by
  unfold partition_doc exactly_one_check runOk resultElements
  constructor
  · simp
  · intro e he
    simp [isTruthy, List.mem_map] at he
    obtain ⟨r, _, rfl⟩ := he
    rfl

/-- C7: every element of a normal return carries the legacy DOC file-type
tag, never the DOCX tag, for any input mode and any other arguments. -/
theorem partition_doc_filetype_DOC (c : Collaborators) (tempDir : String)
    (filename file metadata_filename metadata_last_modified filt : Option String)
    (kwargs : List (String × String)) :
    ∀ e ∈ resultElements (partition_doc c tempDir filename file metadata_filename
        metadata_last_modified filt kwargs),
      e.metadata.filetype = FileType.DOC := by
  intro e he
  cases filename with
  | none =>
    cases file with
    | none =>
      rw [partition_doc_usage_eq c tempDir none none metadata_filename
        metadata_last_modified filt kwargs rfl] at he
      simp [resultElements] at he
    | some s =>
      rw [partition_doc_stream_eq] at he
      simp only [resultElements, partition_docx, List.map_map, List.mem_map,
        Function.comp] at he
      obtain ⟨r, _, rfl⟩ := he
      rfl
  | some p =>
    cases file with
    | some s =>
      rw [partition_doc_usage_eq c tempDir (some p) (some s) metadata_filename
        metadata_last_modified filt kwargs rfl] at he
      simp [resultElements] at he
    | none =>
      by_cases hex : c.fsExists p = true
      · rw [partition_doc_path_eq c tempDir p metadata_filename metadata_last_modified
          filt kwargs hex] at he
        simp only [resultElements, partition_docx, List.mem_map] at he
        obtain ⟨r, _, rfl⟩ := he
        rfl
      · rw [partition_doc_notFound_eq c tempDir p metadata_filename metadata_last_modified
          filt kwargs (by simpa using hex)] at he
        simp [resultElements] at he

/-- Witness for C7 at a concrete input: a concrete element of a concrete
path-mode run carries the DOC tag. -/
theorem partition_doc_filetype_DOC_witness :
    (⟨"id-1", "Hello", "Title",
      ⟨some "simple.doc", FileType.DOC, some "2024-01-02T03:04:05"⟩⟩ : Element).metadata.filetype
      = FileType.DOC :=
  partition_doc_filetype_DOC sampleCollab "/tmp/t7w" (some "/docs/simple.doc") none none none
    default_libre_office_filter []
    ⟨"id-1", "Hello", "Title", ⟨some "simple.doc", FileType.DOC, some "2024-01-02T03:04:05"⟩⟩
    (by decide)

/-- C6 counterexample: a call with an empty-string last-modified override (a
given override) returns elements carrying the filesystem timestamp instead
of that override. -/
theorem partition_doc_last_modified_cex :
    ((resultElements (partition_doc sampleCollab "/tmp/t4" (some "/docs/simple.doc") none none
        (some "") default_libre_office_filter [])).map fun e => e.metadata.last_modified)
      = [some "2024-01-02T03:04:05", some "2024-01-02T03:04:05"]
    ∧ (some "2024-01-02T03:04:05" : Option String) ≠ some "" :=
  ⟨rfl, by simp⟩

/-- C6 (amended): every element of a normal return carries, as last-modified
metadata, the override when it is given and non-empty; else the filesystem
timestamp of the source path when a non-empty path was supplied; else
nothing. -/
theorem partition_doc_last_modified_metadata (c : Collaborators) (tempDir : String)
    (filename file metadata_filename metadata_last_modified filt : Option String)
    (kwargs : List (String × String)) :
    ∀ e ∈ resultElements (partition_doc c tempDir filename file metadata_filename
        metadata_last_modified filt kwargs),
      e.metadata.last_modified
        = if isTruthy metadata_last_modified = true then metadata_last_modified
          else if isTruthy filename = true then get_last_modified_date c (filename.getD "")
          else none := by
  intro e he
  cases filename with
  | none =>
    cases file with
    | none =>
      rw [partition_doc_usage_eq c tempDir none none metadata_filename
        metadata_last_modified filt kwargs rfl] at he
      simp [resultElements] at he
    | some s =>
      rw [partition_doc_stream_eq] at he
      simp only [resultElements, partition_docx, List.map_map, List.mem_map,
        Function.comp] at he
      obtain ⟨r, _, rfl⟩ := he
      simp [pyOr_eq_ite, isTruthy]
  | some p =>
    cases file with
    | some s =>
      rw [partition_doc_usage_eq c tempDir (some p) (some s) metadata_filename
        metadata_last_modified filt kwargs rfl] at he
      simp [resultElements] at he
    | none =>
      by_cases hex : c.fsExists p = true
      · rw [partition_doc_path_eq c tempDir p metadata_filename metadata_last_modified
          filt kwargs hex] at he
        simp only [resultElements, partition_docx, List.mem_map] at he
        obtain ⟨r, _, rfl⟩ := he
        simp [pyOr_eq_ite]
      · rw [partition_doc_notFound_eq c tempDir p metadata_filename metadata_last_modified
          filt kwargs (by simpa using hex)] at he
        simp [resultElements] at he

/-- Witness for C6 (amended) at a concrete input: a concrete element of a
concrete path-mode run with no override carries the filesystem timestamp. -/
theorem partition_doc_last_modified_metadata_witness :
    (⟨"id-1", "Hello", "Title",
      ⟨some "simple.doc", FileType.DOC, some "2024-01-02T03:04:05"⟩⟩ : Element).metadata.last_modified
      = (if isTruthy (none : Option String) = true then (none : Option String)
         else if isTruthy (some "/docs/simple.doc") = true
         then get_last_modified_date sampleCollab ((some "/docs/simple.doc").getD "")
         else none) :=
  partition_doc_last_modified_metadata sampleCollab "/tmp/t8w" (some "/docs/simple.doc") none
    none none default_libre_office_filter []
    ⟨"id-1", "Hello", "Title", ⟨some "simple.doc", FileType.DOC, some "2024-01-02T03:04:05"⟩⟩
    (by decide)

/-- C4 counterexample: with a path input and an override containing a
directory part, the returned elements carry the base name of the override,
not the override itself. -/
theorem partition_doc_path_filename_cex :
    ((resultElements (partition_doc sampleCollab "/tmp/t3" (some "/docs/simple.doc") none
        (some "somedir/override.doc") none default_libre_office_filter [])).map
        fun e => e.metadata.filename)
      = [some "override.doc", some "override.doc"]
    ∧ (some "override.doc" : Option String) ≠ some "somedir/override.doc" :=
  ⟨rfl, by simp⟩

/-- C4 (amended): for a non-empty path input, every element of a normal
return has, as filename metadata, the base name of the override when the
override is given and non-empty, else the base name of the supplied path. -/
theorem partition_doc_path_filename_metadata (c : Collaborators) (tempDir p : String)
    (metadata_filename metadata_last_modified filt : Option String)
    (kwargs : List (String × String)) (hp : p ≠ "") :
    ∀ e ∈ resultElements (partition_doc c tempDir (some p) none metadata_filename
        metadata_last_modified filt kwargs),
      e.metadata.filename
        = some (baseName (if isTruthy metadata_filename = true
            then metadata_filename.getD p else p)) := by
  intro e he
  by_cases hex : c.fsExists p = true
  · rw [partition_doc_path_eq c tempDir p metadata_filename metadata_last_modified
      filt kwargs hex] at he
    simp only [resultElements, partition_docx, List.mem_map] at he
    obtain ⟨r, _, rfl⟩ := he
    dsimp only
    rw [pyOr_getD_truthy metadata_filename p _ hp]
  · rw [partition_doc_notFound_eq c tempDir p metadata_filename metadata_last_modified
      filt kwargs (by simpa using hex)] at he
    simp [resultElements] at he

/-- Witness for C4 (amended) at a concrete input: an existing path and the
override "test". -/
theorem partition_doc_path_filename_metadata_witness :
    ("/docs/simple.doc" ≠ "")
    ∧ ∀ e ∈ resultElements (partition_doc sampleCollab "/tmp/t3w" (some "/docs/simple.doc") none
        (some "test") none default_libre_office_filter []),
        e.metadata.filename
          = some (baseName (if isTruthy (some "test") = true
              then (some "test").getD "/docs/simple.doc" else "/docs/simple.doc")) :=
  ⟨by decide, partition_doc_path_filename_metadata sampleCollab "/tmp/t3w" "/docs/simple.doc"
    (some "test") none default_libre_office_filter [] (by decide)⟩

/-- C2 counterexample: on a nonexistent path the not-found error is raised,
but the trace at that point already holds the last-modified lookup — the
error is not raised before all I/O. -/
theorem partition_doc_not_found_cex :
    (partition_doc sampleCollab "/tmp/t1" (some "/docs/missing.doc") none none none
        default_libre_office_filter []).result = .error (.notFound "/docs/missing.doc")
    ∧ (partition_doc sampleCollab "/tmp/t1" (some "/docs/missing.doc") none none none
        default_libre_office_filter []).trace = [.lastModifiedLookup "/docs/missing.doc"]
    ∧ ([Event.lastModifiedLookup "/docs/missing.doc"] : List Event) ≠ [] :=
  ⟨rfl, rfl, by simp⟩

/-- C2 (amended): a path-only call on a nonexistent path raises the
not-found error carrying the path before any conversion or temporary-file
work — but after the filesystem timestamp lookup, which is the only event
that can precede the error. -/
theorem partition_doc_not_found (c : Collaborators) (tempDir p : String)
    (metadata_filename metadata_last_modified filt : Option String)
    (kwargs : List (String × String)) (hne : c.fsExists p = false) :
    (partition_doc c tempDir (some p) none metadata_filename metadata_last_modified
        filt kwargs).result = .error (.notFound p)
    ∧ ∀ ev ∈ (partition_doc c tempDir (some p) none metadata_filename metadata_last_modified
        filt kwargs).trace, ev = .lastModifiedLookup p := by
  rw [partition_doc_notFound_eq c tempDir p metadata_filename metadata_last_modified
    filt kwargs hne]
  refine ⟨rfl, ?_⟩
  intro ev hev
  dsimp only at hev
  split at hev
  · simpa using hev
  · simp at hev

/-- Witness for C2 (amended) at a concrete input: a path with no filesystem
entry. -/
theorem partition_doc_not_found_witness :
    sampleCollab.fsExists "/docs/missing.doc" = false
    ∧ ((partition_doc sampleCollab "/tmp/t1w" (some "/docs/missing.doc") none none none
          default_libre_office_filter []).result = .error (.notFound "/docs/missing.doc")
       ∧ ∀ ev ∈ (partition_doc sampleCollab "/tmp/t1w" (some "/docs/missing.doc") none none none
          default_libre_office_filter []).trace, ev = .lastModifiedLookup "/docs/missing.doc") :=
  ⟨by decide, partition_doc_not_found sampleCollab "/tmp/t1w" "/docs/missing.doc" none none
    default_libre_office_filter [] (by decide)⟩

/-- C1 counterexample: with a chunking directive passed as a keyword option,
the inner `partition_docx` call receives that option too — it does not
receive only the converted path and the three metadata overrides. -/
theorem partition_doc_forwards_kwargs_cex :
    innerKwargsList (partition_doc sampleCollab "/tmp/t2" (some "/docs/simple.doc") none none none
        default_libre_office_filter [("chunking_strategy", "basic")])
      = [[("chunking_strategy", "basic")]]
    ∧ ([("chunking_strategy", "basic")] : List (String × String)) ≠ [] :=
  ⟨rfl, by simp⟩

/-- C1 (amended): the keyword options the caller passes are forwarded
verbatim to the inner `partition_docx` call, alongside the converted-file
path and the three metadata overrides — for an existing-path input as well
as for a stream input. -/
theorem partition_doc_forwards_kwargs (c : Collaborators) (tempDir p s : String)
    (metadata_filename metadata_last_modified filt : Option String)
    (kwargs : List (String × String)) (hex : c.fsExists p = true) :
    innerKwargsList (partition_doc c tempDir (some p) none metadata_filename
        metadata_last_modified filt kwargs) = [kwargs]
    ∧ innerKwargsList (partition_doc c tempDir none (some s) metadata_filename
        metadata_last_modified filt kwargs) = [kwargs] := by
  constructor
  · rw [partition_doc_path_eq c tempDir p metadata_filename metadata_last_modified
      filt kwargs hex]
    by_cases hp : isTruthy (some p) = true
    · simp only [if_pos hp]
      rfl
    · simp only [if_neg hp]
      rfl
  · rw [partition_doc_stream_eq]
    rfl

/-- Witness for C1 (amended) at a concrete input, in both input modes. -/
theorem partition_doc_forwards_kwargs_witness :
    sampleCollab.fsExists "/docs/simple.doc" = true
    ∧ (innerKwargsList (partition_doc sampleCollab "/tmp/t2w" (some "/docs/simple.doc") none none
          none default_libre_office_filter [("example_opt", "v")]) = [[("example_opt", "v")]]
       ∧ innerKwargsList (partition_doc sampleCollab "/tmp/t2w" none (some "STREAM") none none
          default_libre_office_filter [("example_opt", "v")]) = [[("example_opt", "v")]]) :=
  ⟨by decide, partition_doc_forwards_kwargs sampleCollab "/tmp/t2w" "/docs/simple.doc" "STREAM"
    none none default_libre_office_filter [("example_opt", "v")] (by decide)⟩

/-- C8: with fixed deterministic collaborators and a fixed non-empty path
input, two calls — each with its own private temporary directory — produce
the same outcome, hence identical element sequences with identical
identifiers. -/
theorem partition_doc_deterministic (c : Collaborators) (d₁ d₂ p : String)
    (metadata_filename metadata_last_modified filt : Option String)
    (kwargs : List (String × String)) (hp : p ≠ "") :
    (partition_doc c d₁ (some p) none metadata_filename metadata_last_modified
        filt kwargs).result
      = (partition_doc c d₂ (some p) none metadata_filename metadata_last_modified
        filt kwargs).result := by
  by_cases hex : c.fsExists p = true
  · rw [partition_doc_path_eq c d₁ p metadata_filename metadata_last_modified filt kwargs hex,
        partition_doc_path_eq c d₂ p metadata_filename metadata_last_modified filt kwargs hex]
    dsimp only
    rw [partition_docx_filename_arg_irrelevant c
      (convert_office_doc c (c.fsContent p) filt)
      (pathJoin d₁ (splitExtRoot (baseName (absPath c.cwd p)) ++ ".docx"))
      (pathJoin d₂ (splitExtRoot (baseName (absPath c.cwd p)) ++ ".docx"))
      (pyOr metadata_filename (some p)) FileType.DOC
      (pyOr metadata_last_modified
        (if isTruthy (some p) = true then get_last_modified_date c p else none))
      kwargs
      (isTruthy_pyOr_right metadata_filename (some p) ((isTruthy_some_iff p).mpr hp))]
  · rw [partition_doc_notFound_eq c d₁ p metadata_filename metadata_last_modified filt kwargs
        (by simpa using hex),
       partition_doc_notFound_eq c d₂ p metadata_filename metadata_last_modified filt kwargs
        (by simpa using hex)]

/-- Witness for C8 at a concrete input: the same existing path partitioned
through two different temporary directories. -/
theorem partition_doc_deterministic_witness :
    ("/docs/simple.doc" ≠ "")
    ∧ (partition_doc sampleCollab "/tmp/run1" (some "/docs/simple.doc") none none none
          default_libre_office_filter []).result
      = (partition_doc sampleCollab "/tmp/run2" (some "/docs/simple.doc") none none none
          default_libre_office_filter []).result :=
  ⟨by decide, partition_doc_deterministic sampleCollab "/tmp/run1" "/tmp/run2" "/docs/simple.doc"
    none none default_libre_office_filter [] (by decide)⟩

/-- C9: the converter receives exactly the adapter's filter argument — the
default value being the named profile "MS Word 2007 XML", and an explicit
null reaching the converter as no filter — for an existing-path input and
for a stream input. -/
theorem partition_doc_converter_filter (c : Collaborators) (tempDir p s : String)
    (metadata_filename metadata_last_modified : Option String)
    (kwargs : List (String × String)) (hex : c.fsExists p = true) :
    converterFilters (partition_doc c tempDir (some p) none metadata_filename
        metadata_last_modified default_libre_office_filter kwargs) = [some "MS Word 2007 XML"]
    ∧ converterFilters (partition_doc c tempDir (some p) none metadata_filename
        metadata_last_modified none kwargs) = [none]
    ∧ converterFilters (partition_doc c tempDir none (some s) metadata_filename
        metadata_last_modified default_libre_office_filter kwargs) = [some "MS Word 2007 XML"]
    ∧ converterFilters (partition_doc c tempDir none (some s) metadata_filename
        metadata_last_modified none kwargs) = [none] := by
  refine ⟨?_, ?_, ?_, ?_⟩
  · rw [partition_doc_path_eq c tempDir p metadata_filename metadata_last_modified
      default_libre_office_filter kwargs hex]
    by_cases hp : isTruthy (some p) = true
    · simp only [if_pos hp]
      rfl
    · simp only [if_neg hp]
      rfl
  · rw [partition_doc_path_eq c tempDir p metadata_filename metadata_last_modified
      none kwargs hex]
    by_cases hp : isTruthy (some p) = true
    · simp only [if_pos hp]
      rfl
    · simp only [if_neg hp]
      rfl
  · rw [partition_doc_stream_eq]
    rfl
  · rw [partition_doc_stream_eq]
    rfl

/-- Witness for C9 at a concrete input, in both input modes. -/
theorem partition_doc_converter_filter_witness :
    sampleCollab.fsExists "/docs/simple.doc" = true
    ∧ (converterFilters (partition_doc sampleCollab "/tmp/t5w" (some "/docs/simple.doc") none
          none none default_libre_office_filter []) = [some "MS Word 2007 XML"]
       ∧ converterFilters (partition_doc sampleCollab "/tmp/t5w" (some "/docs/simple.doc") none
          none none none []) = [none]
       ∧ converterFilters (partition_doc sampleCollab "/tmp/t5w" none (some "STREAM") none none
          default_libre_office_filter []) = [some "MS Word 2007 XML"]
       ∧ converterFilters (partition_doc sampleCollab "/tmp/t5w" none (some "STREAM") none none
          none []) = [none]) :=
  ⟨by decide, partition_doc_converter_filter sampleCollab "/tmp/t5w" "/docs/simple.doc" "STREAM"
    none none [] (by decide)⟩

/-- C10: the empty-string filename override is falsy: with a path input the
inner partitioner receives the source path and elements carry its base name
(the empty string is ignored); with a stream input every element's filename
metadata becomes the empty string. -/
theorem partition_doc_empty_filename_override (c : Collaborators) (tempDir p s : String)
    (metadata_last_modified filt : Option String) (kwargs : List (String × String))
    (hp : p ≠ "") (hex : c.fsExists p = true) :
    innerMetadataFilenames (partition_doc c tempDir (some p) none (some "")
        metadata_last_modified filt kwargs) = [some p]
    ∧ (∀ e ∈ resultElements (partition_doc c tempDir (some p) none (some "")
          metadata_last_modified filt kwargs), e.metadata.filename = some (baseName p))
    ∧ ∀ e ∈ resultElements (partition_doc c tempDir none (some s) (some "")
          metadata_last_modified filt kwargs), e.metadata.filename = some "" := by
  have hp' : isTruthy (some p) = true := (isTruthy_some_iff p).mpr hp
  refine ⟨?_, ?_, ?_⟩
  · rw [partition_doc_path_eq c tempDir p (some "") metadata_last_modified filt kwargs hex]
    simp only [if_pos hp']
    rfl
  · intro e he
    rw [partition_doc_path_eq c tempDir p (some "") metadata_last_modified filt kwargs hex] at he
    simp only [resultElements, partition_docx, List.mem_map] at he
    obtain ⟨r, _, rfl⟩ := he
    dsimp only
    rw [pyOr_getD_truthy (some "") p _ hp]
    rfl
  · intro e he
    rw [partition_doc_stream_eq] at he
    simp only [resultElements, partition_docx, List.map_map, List.mem_map,
      Function.comp] at he
    obtain ⟨r, _, rfl⟩ := he
    rfl

/-- Witness for C10 at a concrete input, in both input modes. -/
theorem partition_doc_empty_filename_override_witness :
    (("/docs/simple.doc" ≠ "") ∧ sampleCollab.fsExists "/docs/simple.doc" = true)
    ∧ (innerMetadataFilenames (partition_doc sampleCollab "/tmp/t6w" (some "/docs/simple.doc")
          none (some "") none default_libre_office_filter []) = [some "/docs/simple.doc"]
       ∧ (∀ e ∈ resultElements (partition_doc sampleCollab "/tmp/t6w" (some "/docs/simple.doc")
            none (some "") none default_libre_office_filter []),
            e.metadata.filename = some (baseName "/docs/simple.doc"))
       ∧ ∀ e ∈ resultElements (partition_doc sampleCollab "/tmp/t6w" none (some "STREAM")
            (some "") none default_libre_office_filter []),
            e.metadata.filename = some "") :=
  ⟨⟨by decide, by decide⟩, partition_doc_empty_filename_override sampleCollab "/tmp/t6w"
    "/docs/simple.doc" "STREAM" none default_libre_office_filter [] (by decide) (by decide)⟩

end UnstructuredDoc
